import Mathlib

/-!
Verification model of the rx-pond adapter (a callback-to-stream facade over
the Actyx Pond client).  Every wrapper from `src/index.ts` (the `wrap`
function building the `RxPond` record) and from the events adapter
(`mkEvents` building the `RxEventFn` record) is embedded by two data:

* the list of signals its subscriber function pushes into the rx observer
  (`o.next` / `o.error` / `o.complete` calls), as a function of the callback
  invocations the engine performs for the registration made by that
  subscriber function, and
* the teardown value the subscriber function returns to the rx runtime.

The rx runtime itself is embedded by `deliver` (the safe-observer rule: a
subscriber sees nothing after the first terminal signal),
`deliverUntilUnsubscribe` (unsubscribing discards all later signals) and
`Teardown.engineCancelInvocations` (rx invokes the returned teardown exactly
once on unsubscription).  Since every wrapper builds its Observable with
`new Observable(subscriberFn)`, the subscriber function runs once per
subscription; for `wrap.emit` and `wrap.run` this means the engine call
placed inside the subscriber function runs once per subscription as well,
which `emitEngineInvocations` / `runEngineInvocations` record.
-/

set_option autoImplicit false

namespace RxAdapter

/-- Signals a producer pushes into an rx observer: a value (`o.next`), an
error (`o.error`) or completion (`o.complete`). -/
inductive Sig (α : Type) (ε : Type) where
  | next (a : α)
  | err (e : ε)
  | complete
  deriving Repr, DecidableEq

/-- Whether a signal is an error signal. -/
def Sig.isErr {α ε : Type} : Sig α ε → Bool
  | Sig.err _ => true
  | _ => false

/-- rx safe-observer semantics: the trace a subscriber actually receives ends
at the first terminal signal (error or completion); anything the producer
pushes afterwards is discarded. -/
def deliver {α ε : Type} : List (Sig α ε) → List (Sig α ε)
  | [] => []
  | Sig.next a :: rest => Sig.next a :: deliver rest
  | Sig.err e :: _ => [Sig.err e]
  | Sig.complete :: _ => [Sig.complete]

/-- rx unsubscribe semantics: a subscriber that unsubscribes after the
producer has pushed `k` signals receives nothing pushed later. -/
def deliverUntilUnsubscribe {α ε : Type} (sigs : List (Sig α ε)) (k : Nat) :
    List (Sig α ε) :=
  deliver (sigs.take k)

/-- Teardown a subscriber function returns to the rx runtime: either the
cancellation handle obtained from the engine, or a no-op. -/
inductive Teardown where
  | engineCancel
  | noop
  deriving Repr, DecidableEq

/-- rx invokes the returned teardown exactly once when a subscription is
unsubscribed; this counts how many engine-side cancellation-handle
invocations that causes. -/
def Teardown.engineCancelInvocations : Teardown → Nat
  | Teardown.engineCancel => 1
  | Teardown.noop => 0

/- ----------------------------------------------------------------------
wrap.emit and wrap.run, src/index.ts lines 192-199 and 233-240.
The body of the returned Observable is
  o => pond.emit(tags, event).subscribe(() => (o.next(undefined); o.complete()))
resp. the same with pond.run(fish, fn); the engine call sits inside the
subscriber function, so it executes once per rx subscription, not at the
time wrap.emit / wrap.run is called.
---------------------------------------------------------------------- -/

/-- Number of times the subscriber function of the Observable returned by
wrap.emit invokes pond.emit when it runs: exactly one call, on line 194 of
src/index.ts. -/
def emitEngineCallsPerSubscription : Nat := 1

/-- Total number of pond.emit invocations caused by the Observable returned
by one wrap.emit call, as a function of how many times that Observable is
subscribed: the subscriber function runs once per subscription and performs
`emitEngineCallsPerSubscription` engine calls each time. -/
def emitEngineInvocations (subscriptions : Nat) : Nat :=
  subscriptions * emitEngineCallsPerSubscription

/-- Signals pushed during one subscription of the Observable returned by
wrap.emit: the callback registered on the PendingEmission pushes
o.next(undefined) followed by o.complete() each time the engine fires it;
`fires` counts those firings (the engine resolves a pending emission at most
once, but the model leaves the count free). -/
def emitSignals (fires : Nat) : List (Sig Unit Empty) :=
  (List.replicate fires [Sig.next (), Sig.complete]).flatten

/-- The subscriber function of wrap.emit returns the result of
PendingEmission.subscribe, which is not a cancellation handle: unsubscribing
performs no engine-side cancellation. -/
def emitTeardown : Teardown := Teardown.noop

/-- Number of times the subscriber function of the Observable returned by
wrap.run invokes pond.run when it runs: exactly one call, on line 235 of
src/index.ts. -/
def runEngineCallsPerSubscription : Nat := 1

/-- Total number of pond.run invocations caused by the Observable returned by
one wrap.run call, as a function of the number of subscriptions. -/
def runEngineInvocations (subscriptions : Nat) : Nat :=
  subscriptions * runEngineCallsPerSubscription

/-- Signals pushed during one subscription of the Observable returned by
wrap.run, mirroring `emitSignals`: o.next(undefined) then o.complete() each
time the engine fires the completion callback of the pending effect. -/
def runSignals (fires : Nat) : List (Sig Unit Empty) :=
  (List.replicate fires [Sig.next (), Sig.complete]).flatten

/-- The subscriber function of wrap.run likewise returns the result of
PendingCommand.subscribe, not a cancellation handle. -/
def runTeardown : Teardown := Teardown.noop

/- ----------------------------------------------------------------------
wrap.observe (src/index.ts 201-208), wrap.observeAll (210-219),
wrap.observeOne (220-231).
---------------------------------------------------------------------- -/

/-- Callback invocations the engine performs for one pond.observe /
pond.observeOne registration: the value callback or the error callback. -/
inductive ObserveCall (σ : Type) (ε : Type) where
  | onNext (v : σ)
  | onError (e : ε)

/-- wrap.observe translation of one engine callback invocation:
`v => o.next(v)` and `err => o.error(err)` (src/index.ts 205-206). -/
def observeSignal {σ ε : Type} : ObserveCall σ ε → Sig σ ε
  | ObserveCall.onNext v => Sig.next v
  | ObserveCall.onError e => Sig.err e

/-- Signals pushed during one subscription of wrap.observe, given the
sequence of callback invocations the engine performs. -/
def observeSignals {σ ε : Type} (calls : List (ObserveCall σ ε)) :
    List (Sig σ ε) :=
  calls.map observeSignal

/-- The subscriber function of wrap.observe returns the CancelSubscription
that pond.observe returns (expression-bodied arrow, src/index.ts 202-208). -/
def observeTeardown : Teardown := Teardown.engineCancel

/-- Signals pushed during one subscription of wrap.observeAll: only a value
callback `v => o.next(v)` is registered (src/index.ts 216-218); each engine
invocation carries an array of states. -/
def observeAllSignals {σ : Type} (updates : List (List σ)) :
    List (Sig (List σ) Empty) :=
  updates.map Sig.next

/-- The subscriber function of wrap.observeAll returns the CancelSubscription
that pond.observeAll returns. -/
def observeAllTeardown : Teardown := Teardown.engineCancel

/-- Signals pushed during one subscription of wrap.observeOne: same
translation as wrap.observe, value callback plus error callback
(src/index.ts 228-229). -/
def observeOneSignals {σ ε : Type} (calls : List (ObserveCall σ ε)) :
    List (Sig σ ε) :=
  calls.map observeSignal

/-- The subscriber function of wrap.observeOne returns the CancelSubscription
that pond.observeOne returns. -/
def observeOneTeardown : Teardown := Teardown.engineCancel

/- ----------------------------------------------------------------------
Events adapter, mkEvents: chunked queries, open-ended subscriptions.
---------------------------------------------------------------------- -/

/-- Outcome of the promise returned by the engine chunked-query primitive. -/
inductive PromiseOutcome where
  | resolved
  | rejected
  | pending
  deriving Repr, DecidableEq

/-- Signals pushed during one subscription of
mkEvents.queryKnownRangeChunked: the subscriber function invokes
events.queryKnownRangeChunked(query, chunkSize, c => o.next(c)) and chains
.then(_ => o.complete()) with no rejection handler, so o.complete() is
pushed exactly when the promise resolves and nothing terminal is pushed on
rejection or while the promise is pending. -/
def queryKnownRangeChunkedSignals {γ : Type} (chunks : List γ)
    (p : PromiseOutcome) : List (Sig γ Empty) :=
  chunks.map Sig.next ++
    (match p with
      | PromiseOutcome.resolved => [Sig.complete]
      | PromiseOutcome.rejected => []
      | PromiseOutcome.pending => [])

/-- The subscriber function of mkEvents.queryKnownRangeChunked returns the
literal no-op teardown `() => undefined` (commented in the source as
unable to terminate the query). -/
def queryKnownRangeChunkedTeardown : Teardown := Teardown.noop

/-- Signals pushed during one subscription of mkEvents.queryAllKnownChunked:
identical shape to `queryKnownRangeChunkedSignals`, translated from
events.queryAllKnownChunked(query, chunkSize, c => o.next(c)) chained with
.then(_ => o.complete()) and no rejection handler. -/
def queryAllKnownChunkedSignals {γ : Type} (chunks : List γ)
    (p : PromiseOutcome) : List (Sig γ Empty) :=
  chunks.map Sig.next ++
    (match p with
      | PromiseOutcome.resolved => [Sig.complete]
      | PromiseOutcome.rejected => []
      | PromiseOutcome.pending => [])

/-- The subscriber function of mkEvents.queryAllKnownChunked also returns the
no-op teardown `() => undefined`. -/
def queryAllKnownChunkedTeardown : Teardown := Teardown.noop

/-- Signals pushed during one subscription of mkEvents.subscribe: only a
chunk callback `c => o.next(c)` is registered; no error or completion
callback exists. -/
def subscribeSignals {γ : Type} (chunks : List γ) : List (Sig γ Empty) :=
  chunks.map Sig.next

/-- The subscriber function of mkEvents.subscribe returns the cancellation
handle that events.subscribe returns. -/
def subscribeTeardown : Teardown := Teardown.engineCancel

/-- Signals pushed during one subscription of mkEvents.observeEarliest: the
engine callback receives an event and its metadata and the wrapper pushes
o.next on the pair; no error or completion callback exists. -/
def observeEarliestSignals {E M : Type} (updates : List (E × M)) :
    List (Sig (E × M) Empty) :=
  updates.map Sig.next

/-- The subscriber function of mkEvents.observeEarliest returns the
cancellation handle that events.observeEarliest returns. -/
def observeEarliestTeardown : Teardown := Teardown.engineCancel

/-- Signals pushed during one subscription of mkEvents.observeLatest, same
translation as `observeEarliestSignals`. -/
def observeLatestSignals {E M : Type} (updates : List (E × M)) :
    List (Sig (E × M) Empty) :=
  updates.map Sig.next

/-- The subscriber function of mkEvents.observeLatest returns the
cancellation handle that events.observeLatest returns. -/
def observeLatestTeardown : Teardown := Teardown.engineCancel

/-- Signals pushed during one subscription of mkEvents.observeBestMatch: the
engine invokes the replacement callback with event and metadata and the
wrapper pushes o.next on the pair; no error or completion callback exists. -/
def observeBestMatchSignals {E M : Type} (updates : List (E × M)) :
    List (Sig (E × M) Empty) :=
  updates.map Sig.next

/-- The subscriber function of mkEvents.observeBestMatch returns the
cancellation handle that events.observeBestMatch returns. -/
def observeBestMatchTeardown : Teardown := Teardown.engineCancel

/-- Signals pushed during one subscription of
mkEvents.observeUnorderedReduce: the engine invokes the update callback with
successive reduced states and the wrapper pushes o.next(state); no error or
completion callback exists. -/
def observeUnorderedReduceSignals {R : Type} (states : List R) :
    List (Sig R Empty) :=
  states.map Sig.next

/-- The subscriber function of mkEvents.observeUnorderedReduce returns the
cancellation handle that events.observeUnorderedReduce returns. -/
def observeUnorderedReduceTeardown : Teardown := Teardown.engineCancel

/- ----------------------------------------------------------------------
wrap.waitForSwarmSync, src/index.ts 250-256.
---------------------------------------------------------------------- -/

/-- Callback invocations the engine performs for one pond.waitForSwarmSync
registration: repeated progress updates and the sync-complete signal. -/
inductive SwarmCall (π : Type) where
  | onProgress (p : π)
  | onSyncComplete

/-- wrap.waitForSwarmSync translation of one engine callback invocation:
`onProgress: v => o.next(v)` and `onSyncComplete: () => o.complete()`; no
error callback exists. -/
def waitForSwarmSyncSignal {π : Type} : SwarmCall π → Sig π Empty
  | SwarmCall.onProgress p => Sig.next p
  | SwarmCall.onSyncComplete => Sig.complete

/-- Signals pushed during one subscription of wrap.waitForSwarmSync. -/
def waitForSwarmSyncSignals {π : Type} (calls : List (SwarmCall π)) :
    List (Sig π Empty) :=
  calls.map waitForSwarmSyncSignal

/- ----------------------------------------------------------------------
Facade surface, src/index.ts: the labels of the RxPond record built by
`wrap` (lines 191-260), the labels of the RxEventFn record built by
`mkEvents`, and the construction entry points of the RxPond const
(lines 262-270).
---------------------------------------------------------------------- -/

/-- Operation names of the RxPond record returned by wrap (src/index.ts
191-260), in source order. -/
def rxPondOperations : List String :=
  ["emit", "observe", "observeAll", "observeOne", "run", "keepRunning",
   "dispose", "info", "getPondState", "waitForSwarmSync", "events",
   "originalPond"]

/-- Operation names of the RxEventFn record returned by mkEvents, in source
order. -/
def rxEventFnOperations : List String :=
  ["currentOffsets", "queryKnownRange", "queryKnownRangeChunked",
   "queryAllKnown", "queryAllKnownChunked", "subscribe", "observeEarliest",
   "observeLatest", "observeBestMatch", "observeUnorderedReduce", "emit"]

/-- Construction entry points of the RxPond const (src/index.ts 262-270). -/
def rxPondConstructionEntryPoints : List String :=
  ["default", "of", "from"]

/- ----------------------------------------------------------------------
Helper lemmas about the rx delivery semantics.
---------------------------------------------------------------------- -/

/-- Delivery over a block of pure value signals passes them through and
continues with the remainder. -/
theorem deliver_map_next_append {α ε : Type} (vs : List α)
    (rest : List (Sig α ε)) :
    deliver (vs.map Sig.next ++ rest) = vs.map Sig.next ++ deliver rest := by
  induction vs with
  | nil => rfl
  | cons v vs ih => simp [deliver, ih]

/-- Delivery of a list of pure value signals is the identity. -/
theorem deliver_map_next {α ε : Type} (vs : List α) :
    deliver (vs.map (Sig.next : α → Sig α ε)) = vs.map Sig.next := by
  have h := deliver_map_next_append vs ([] : List (Sig α ε))
  simpa [deliver] using h

/-- Signals over an empty error type never contain an error signal. -/
theorem all_not_isErr_of_empty {α : Type} (sigs : List (Sig α Empty)) :
    (sigs.all fun s => !s.isErr) = true := by
  induction sigs with
  | nil => rfl
  | cons s rest ih =>
    cases s with
    | next a => simp [Sig.isErr, ih]
    | err e => exact e.elim
    | complete => simp [Sig.isErr, ih]

/-- Mapping the wrap.observe callback translation over pure value callback
invocations yields pure value signals. -/
theorem observeSignal_comp_onNext {σ ε : Type} :
    (observeSignal ∘ (ObserveCall.onNext : σ → ObserveCall σ ε)) = Sig.next := by
  funext v
  rfl

/-- Mapping the wrap.waitForSwarmSync callback translation over pure progress
invocations yields pure value signals. -/
theorem waitForSwarmSyncSignal_comp_onProgress {π : Type} :
    (waitForSwarmSyncSignal ∘ (SwarmCall.onProgress : π → SwarmCall π)) =
      Sig.next := by
  funext p
  rfl

/-- Taking the image length of the first block of a mapped append recovers
the image of the first block. -/
theorem take_length_map_append {β α : Type} (f : β → α)
    (before after : List β) :
    ((before ++ after).map f).take before.length = before.map f := by
  rw [List.map_append]
  have h : before.length = (before.map f).length := (List.length_map _ _).symm
  rw [h, List.take_left]

/- ----------------------------------------------------------------------
Claim theorems.
---------------------------------------------------------------------- -/

/-- C1: the claim states that pond.emit and pond.run are invoked exactly once
at the time wrap.emit / wrap.run is called, independently of the number of
subscriptions to the returned stream.  In the code both engine calls sit
inside the Observable subscriber function, which the rx runtime executes once
per subscription: zero subscriptions trigger the engine effect zero times and
two subscriptions trigger it twice, so the invocation count equals the
subscription count and is not independent of it.  This contradicts the doc
comments in src/index.ts (lines 42 and 126), which describe the Observable as
hot with the emission or effect happening even when nothing subscribes. -/
theorem c1_emit_run_effect_per_subscription :
    emitEngineInvocations 0 = 0 ∧ emitEngineInvocations 1 = 1 ∧
    emitEngineInvocations 2 = 2 ∧
    runEngineInvocations 0 = 0 ∧ runEngineInvocations 2 = 2 := by
  decide

/-- C2: for every single subscription to the stream returned by wrap.emit or
wrap.run, once the engine fires the completion callback of the pending
emission or effect (one or more times), the delivered trace is exactly one
unit value followed by completion; the safe-observer rule makes a second
value impossible. -/
theorem c2_emit_run_single_unit_then_complete (n : Nat) :
    deliver (emitSignals (n + 1)) = [Sig.next (), Sig.complete] ∧
    deliver (runSignals (n + 1)) = [Sig.next (), Sig.complete] := by
  constructor <;> simp [emitSignals, runSignals, List.replicate_succ, deliver]

/-- C2 witness: with the engine firing the callback exactly once, both
streams deliver exactly one unit value followed by completion. -/
theorem c2_emit_run_single_unit_then_complete_witness :
    deliver (emitSignals 1) = [Sig.next (), Sig.complete] ∧
    deliver (runSignals 1) = [Sig.next (), Sig.complete] :=
  c2_emit_run_single_unit_then_complete 0

/-- C3: for every finite sequence of values with which the engine invokes the
value callback registered by wrap.observe, the delivered trace is exactly
those values, in the same order, with nothing dropped, duplicated or
coalesced. -/
theorem c3_observe_preserves_sequence (σ ε : Type) (vs : List σ) :
    deliver (@observeSignals σ ε (vs.map ObserveCall.onNext)) =
      vs.map Sig.next := by
  have h : @observeSignals σ ε (vs.map ObserveCall.onNext) = vs.map Sig.next := by
    simp [observeSignals, List.map_map, observeSignal_comp_onNext]
  rw [h, deliver_map_next]

/-- C4: for wrap.observe, wrap.observeAll, wrap.observeOne and the open-ended
event subscriptions (mkEvents.subscribe, observeEarliest, observeLatest,
observeBestMatch, observeUnorderedReduce), the teardown returned to the rx
runtime is the cancellation handle obtained from the engine, so unsubscribing
invokes that handle exactly once; and the trace delivered to a subscriber
that unsubscribes after the engine callback invocations `before` ignores all
later invocations `after` entirely. -/
theorem c4_unsubscribe_cancels_engine_once :
    (Teardown.engineCancelInvocations observeTeardown = 1 ∧
     Teardown.engineCancelInvocations observeAllTeardown = 1 ∧
     Teardown.engineCancelInvocations observeOneTeardown = 1 ∧
     Teardown.engineCancelInvocations subscribeTeardown = 1 ∧
     Teardown.engineCancelInvocations observeEarliestTeardown = 1 ∧
     Teardown.engineCancelInvocations observeLatestTeardown = 1 ∧
     Teardown.engineCancelInvocations observeBestMatchTeardown = 1 ∧
     Teardown.engineCancelInvocations observeUnorderedReduceTeardown = 1) ∧
    (∀ (σ ε : Type) (before after : List (ObserveCall σ ε)),
      deliverUntilUnsubscribe (observeSignals (before ++ after)) before.length =
        deliver (observeSignals before)) ∧
    (∀ (σ : Type) (before after : List (List σ)),
      deliverUntilUnsubscribe (observeAllSignals (before ++ after)) before.length =
        deliver (observeAllSignals before)) ∧
    (∀ (σ ε : Type) (before after : List (ObserveCall σ ε)),
      deliverUntilUnsubscribe (observeOneSignals (before ++ after)) before.length =
        deliver (observeOneSignals before)) ∧
    (∀ (γ : Type) (before after : List γ),
      deliverUntilUnsubscribe (subscribeSignals (before ++ after)) before.length =
        deliver (subscribeSignals before)) ∧
    (∀ (E M : Type) (before after : List (E × M)),
      deliverUntilUnsubscribe (observeEarliestSignals (before ++ after)) before.length =
        deliver (observeEarliestSignals before)) ∧
    (∀ (E M : Type) (before after : List (E × M)),
      deliverUntilUnsubscribe (observeLatestSignals (before ++ after)) before.length =
        deliver (observeLatestSignals before)) ∧
    (∀ (E M : Type) (before after : List (E × M)),
      deliverUntilUnsubscribe (observeBestMatchSignals (before ++ after)) before.length =
        deliver (observeBestMatchSignals before)) ∧
    (∀ (R : Type) (before after : List R),
      deliverUntilUnsubscribe (observeUnorderedReduceSignals (before ++ after)) before.length =
        deliver (observeUnorderedReduceSignals before)) := by
  refine ⟨⟨rfl, rfl, rfl, rfl, rfl, rfl, rfl, rfl⟩, ?_, ?_, ?_, ?_, ?_, ?_, ?_, ?_⟩ <;>
    intros <;>
    simp [deliverUntilUnsubscribe, observeSignals, observeAllSignals,
      observeOneSignals, subscribeSignals, observeEarliestSignals,
      observeLatestSignals, observeBestMatchSignals,
      observeUnorderedReduceSignals, take_length_map_append]

/-- C5: the chunked query wrappers push one value per chunk delivered by the
engine and push completion exactly when the chunked-query promise resolves
(no completion while it is pending); and the teardown they return is a no-op,
so unsubscribing performs zero engine-side cancellations and has no effect on
the engine, which completes the scan internally. -/
theorem c5_chunked_per_chunk_then_complete :
    (∀ (γ : Type) (chunks : List γ),
      deliver (queryKnownRangeChunkedSignals chunks PromiseOutcome.resolved) =
        chunks.map Sig.next ++ [Sig.complete] ∧
      deliver (queryKnownRangeChunkedSignals chunks PromiseOutcome.pending) =
        chunks.map Sig.next) ∧
    (∀ (γ : Type) (chunks : List γ),
      deliver (queryAllKnownChunkedSignals chunks PromiseOutcome.resolved) =
        chunks.map Sig.next ++ [Sig.complete] ∧
      deliver (queryAllKnownChunkedSignals chunks PromiseOutcome.pending) =
        chunks.map Sig.next) ∧
    Teardown.engineCancelInvocations queryKnownRangeChunkedTeardown = 0 ∧
    Teardown.engineCancelInvocations queryAllKnownChunkedTeardown = 0 := by
  refine ⟨?_, ?_, rfl, rfl⟩ <;>
    intro γ chunks <;>
    constructor <;>
    simp [queryKnownRangeChunkedSignals, queryAllKnownChunkedSignals,
      deliver_map_next_append, deliver_map_next, deliver]

/-- C6: for wrap.observe and wrap.observeOne, if the engine invokes the error
callback after delivering the values vs, the subscriber receives exactly vs
followed by that error as a terminal signal, and nothing the engine does
afterwards is delivered. -/
theorem c6_observe_error_terminal :
    (∀ (σ ε : Type) (vs : List σ) (e : ε) (rest : List (ObserveCall σ ε)),
      deliver (observeSignals
          (vs.map ObserveCall.onNext ++ ObserveCall.onError e :: rest)) =
        vs.map Sig.next ++ [Sig.err e]) ∧
    (∀ (σ ε : Type) (vs : List σ) (e : ε) (rest : List (ObserveCall σ ε)),
      deliver (observeOneSignals
          (vs.map ObserveCall.onNext ++ ObserveCall.onError e :: rest)) =
        vs.map Sig.next ++ [Sig.err e]) := by
  constructor <;>
    intro σ ε vs e rest <;>
    simp [observeSignals, observeOneSignals, List.map_map,
      observeSignal_comp_onNext, observeSignal, deliver_map_next_append,
      deliver]

/-- C7: the wrappers built over engine operations that offer no error
callback (wrap.observeAll, mkEvents.subscribe, observeEarliest,
observeLatest, observeBestMatch, observeUnorderedReduce and both chunked
queries) never deliver an error signal to any subscriber, for every engine
behaviour. -/
theorem c7_no_error_channel_never_errors :
    (∀ (σ : Type) (updates : List (List σ)),
      ((deliver (observeAllSignals updates)).all fun s => !s.isErr) = true) ∧
    (∀ (γ : Type) (chunks : List γ),
      ((deliver (subscribeSignals chunks)).all fun s => !s.isErr) = true) ∧
    (∀ (E M : Type) (updates : List (E × M)),
      ((deliver (observeEarliestSignals updates)).all fun s => !s.isErr) = true) ∧
    (∀ (E M : Type) (updates : List (E × M)),
      ((deliver (observeLatestSignals updates)).all fun s => !s.isErr) = true) ∧
    (∀ (E M : Type) (updates : List (E × M)),
      ((deliver (observeBestMatchSignals updates)).all fun s => !s.isErr) = true) ∧
    (∀ (R : Type) (states : List R),
      ((deliver (observeUnorderedReduceSignals states)).all fun s => !s.isErr) = true) ∧
    (∀ (γ : Type) (chunks : List γ) (p : PromiseOutcome),
      ((deliver (queryKnownRangeChunkedSignals chunks p)).all fun s => !s.isErr) = true) ∧
    (∀ (γ : Type) (chunks : List γ) (p : PromiseOutcome),
      ((deliver (queryAllKnownChunkedSignals chunks p)).all fun s => !s.isErr) = true) := by
    refine ⟨?_, ?_, ?_, ?_, ?_, ?_, ?_, ?_⟩ <;> intros <;>
      exact all_not_isErr_of_empty _

/-- C8: for every subscription to wrap.waitForSwarmSync, given a run in which
the engine delivers the progress updates ps and then fires the sync-complete
signal, the delivered trace is exactly one value per progress update followed
by a single completion, with nothing delivered afterwards; and for every
engine behaviour the stream never delivers an error signal. -/
theorem c8_swarm_sync_progress_then_complete :
    (∀ (π : Type) (ps : List π) (rest : List (SwarmCall π)),
      deliver (waitForSwarmSyncSignals
          (ps.map SwarmCall.onProgress ++ SwarmCall.onSyncComplete :: rest)) =
        ps.map Sig.next ++ [Sig.complete]) ∧
    (∀ (π : Type) (calls : List (SwarmCall π)),
      ((deliver (waitForSwarmSyncSignals calls)).all fun s => !s.isErr) = true) := by
  constructor
  · intro π ps rest
    simp [waitForSwarmSyncSignals, List.map_map,
      waitForSwarmSyncSignal_comp_onProgress, waitForSwarmSyncSignal,
      deliver_map_next_append, deliver]
  · intro π calls
    exact all_not_isErr_of_empty _

/-- C9 counterexample: the RxPond facade record exposes no operation named
getNodeConnectivity, refuting the claim that the facade mirrors every engine
operation of the external-interface list including getNodeConnectivity. -/
theorem c9_counterexample_no_getNodeConnectivity :
    rxPondOperations.contains "getNodeConnectivity" = false := by
  decide

/-- C9 amended: the facade exposes, under the engine operation names, the
state and effect operations, the housekeeping operations dispose, info,
getPondState and waitForSwarmSync, and through the events record every
event-query operation, together with the three construction entry points
from, default and of; getNodeConnectivity is not exposed. -/
theorem c9_surface_without_getNodeConnectivity :
    rxPondOperations.contains "emit" = true ∧
    rxPondOperations.contains "observe" = true ∧
    rxPondOperations.contains "observeAll" = true ∧
    rxPondOperations.contains "observeOne" = true ∧
    rxPondOperations.contains "run" = true ∧
    rxPondOperations.contains "keepRunning" = true ∧
    rxPondOperations.contains "dispose" = true ∧
    rxPondOperations.contains "info" = true ∧
    rxPondOperations.contains "getPondState" = true ∧
    rxPondOperations.contains "waitForSwarmSync" = true ∧
    rxPondOperations.contains "getNodeConnectivity" = false ∧
    rxEventFnOperations.contains "currentOffsets" = true ∧
    rxEventFnOperations.contains "queryKnownRange" = true ∧
    rxEventFnOperations.contains "queryKnownRangeChunked" = true ∧
    rxEventFnOperations.contains "queryAllKnown" = true ∧
    rxEventFnOperations.contains "queryAllKnownChunked" = true ∧
    rxEventFnOperations.contains "subscribe" = true ∧
    rxEventFnOperations.contains "observeEarliest" = true ∧
    rxEventFnOperations.contains "observeLatest" = true ∧
    rxEventFnOperations.contains "observeBestMatch" = true ∧
    rxEventFnOperations.contains "observeUnorderedReduce" = true ∧
    rxEventFnOperations.contains "emit" = true ∧
    rxPondConstructionEntryPoints.contains "from" = true ∧
    rxPondConstructionEntryPoints.contains "default" = true ∧
    rxPondConstructionEntryPoints.contains "of" = true := by
  decide

/-- C10: if the chunked-query promise rejects, the wrapper chains only a
fulfillment handler, so the subscriber receives exactly the chunks already
delivered and no terminal signal at all: the stream neither errors nor
completes and stays open. -/
theorem c10_chunked_rejection_stays_open :
    (∀ (γ : Type) (chunks : List γ),
      deliver (queryKnownRangeChunkedSignals chunks PromiseOutcome.rejected) =
        chunks.map Sig.next) ∧
    (∀ (γ : Type) (chunks : List γ),
      deliver (queryAllKnownChunkedSignals chunks PromiseOutcome.rejected) =
        chunks.map Sig.next) := by
  constructor <;>
    intro γ chunks <;>
    simp [queryKnownRangeChunkedSignals, queryAllKnownChunkedSignals,
      deliver_map_next]

end RxAdapter
